import Mathlib

/-!
Verification of the tinyland offer-builder: a shallow embedding of
`src/transaction-mappings.ts` and `src/offer-builder.ts` together with
theorems settling the specification claims.

Modelling conventions:
* JavaScript `undefined` for an optional field is `Option.none`.
* JS string truthiness: `undefined` and `""` are falsy (`strTruthy`, `strOr`).
* A price is a JS number or string (`PriceVal`); numbers are exact decimal
  fixed-point values (`JsNum`, a mantissa and a power-of-ten shift): every
  number this module parses, prints or compares is a decimal literal, on
  which IEEE-754 doubles behave exactly like this model.
* `parseFloat` is modelled on plain decimal literals (`jsParseFloat`);
  a `NaN` result is `Option.none`.
* Throwing functions return `Except String`.
* The tracing boundary (`config.ts`) is a pass-through no-op by default and
  never alters results, so it is not modelled.
-/

deriving instance DecidableEq for Except

namespace OfferBuilder

/-- JS truthiness of an optional string field: `undefined` and `""` are falsy. -/
def strTruthy : Option String → Bool
  | some s => s != ""
  | none => false

/-- JS `x || d` on an optional string `x`: the fallback fires on `undefined` and `""`. -/
def strOr : Option String → String → String
  | some s, d => if s == "" then d else s
  | none, d => d

/-- JS template-literal stringification of a possibly-undefined string. -/
def jsStr : Option String → String
  | some s => s
  | none => "undefined"

/-- Value of a string of decimal digits. -/
def digitsToNat (ds : List Char) : Nat :=
  ds.foldl (fun acc c => acc * 10 + (c.toNat - 48)) 0

/-- Leading-sign split for `jsParseFloat`. -/
def splitSign : List Char → Int × List Char
  | '-' :: rest => (-1, rest)
  | '+' :: rest => (1, rest)
  | cs => (1, cs)

/-- An exact decimal JS number: the value `mantissa / 10 ^ shift`.
Every number this module handles is a decimal literal, on which IEEE-754
doubles behave exactly like this representation. -/
structure JsNum where
  mantissa : Int
  shift : Nat
deriving DecidableEq

/-- The rational value a `JsNum` denotes (for relating concrete values to the
spec's decimal numerals). -/
def JsNum.toRat (v : JsNum) : Rat :=
  (v.mantissa : Rat) / (10 : Rat) ^ v.shift

/-- Model of JavaScript `parseFloat` restricted to plain decimal literals
(optional sign, integer digits, optional fraction; longest valid prefix;
no exponent, `Infinity` or whitespace handling, which never arise in this
repository). A `NaN` result is `none`. -/
def jsParseFloat (s : String) : Option JsNum :=
  let p := splitSign s.data
  let intDs := p.2.takeWhile Char.isDigit
  let rest := p.2.dropWhile Char.isDigit
  let fracDs :=
    match rest with
    | '.' :: rest2 => rest2.takeWhile Char.isDigit
    | _ => []
  if intDs.isEmpty && fracDs.isEmpty then none
  else
    some { mantissa := p.1 *
             ((digitsToNat intDs * 10 ^ fracDs.length + digitsToNat fracDs : Nat) : Int)
           shift := fracDs.length }

/-- Decimal digit characters of `r`, exactly `k` of them, most significant
first. -/
def paddedDigits : Nat → Nat → List Char
  | 0, _ => []
  | Nat.succ k, r => paddedDigits k (r / 10) ++ [Char.ofNat (48 + r % 10)]

/-- Model of JavaScript number-to-string on exact decimals: sign, integer
part, then the fractional digits with trailing zeros dropped; integer values
print with no decimal point, as in JS. -/
def JsNum.displayString (v : JsNum) : String :=
  let sgn := if v.mantissa < 0 then "-" else ""
  let n := v.mantissa.natAbs
  let d := (10 : Nat) ^ v.shift
  let fr := ((paddedDigits v.shift (n % d)).reverse.dropWhile (· == '0')).reverse
  sgn ++ toString (n / d) ++ (if fr.isEmpty then "" else "." ++ String.mk fr)

/-- A JS `number | string` price value. -/
inductive PriceVal where
  | num (v : JsNum)
  | str (s : String)
deriving DecidableEq

/-- JS truthiness of a price: the number `0` and the string `""` are falsy. -/
def PriceVal.truthy : PriceVal → Bool
  | .num v => v.mantissa != 0
  | .str s => s != ""

/-- `typeof price === 'string' ? parseFloat(price) : price`; `none` is `NaN`. -/
def PriceVal.parse : PriceVal → Option JsNum
  | .num v => some v
  | .str s => jsParseFloat s

/-- JS template-literal stringification of a price value. -/
def PriceVal.display : PriceVal → String
  | .num v => v.displayString
  | .str s => s

/-- JS truthiness of an optional price field. -/
def priceTruthy : Option PriceVal → Bool
  | some v => v.truthy
  | none => false

/-- `TransactionMapping` from `src/types.ts` (string-literal unions kept as strings). -/
structure TransactionMapping where
  transactionType : String
  schemaType : String
  paymentMethods : List String
  defaultAvailability : String
  requiresExternalUrl : Bool
  isMonetary : Bool
  isCryptocurrency : Bool
  isSubscription : Bool
  isDonation : Bool
deriving DecidableEq

/-- The fifteen entries of `TRANSACTION_MAPPINGS` from
`src/transaction-mappings.ts`, in source (insertion) order. -/
def mappingsList : List (String × TransactionMapping) :=
  [("inquiry",
    { transactionType := "inquiry", schemaType := "Offer", paymentMethods := [],
      defaultAvailability := "InStock", requiresExternalUrl := false,
      isMonetary := false, isCryptocurrency := false, isSubscription := false,
      isDonation := false }),
   ("ebay",
    { transactionType := "ebay", schemaType := "Offer",
      paymentMethods := ["CreditCard", "PaymentService"],
      defaultAvailability := "OnlineOnly", requiresExternalUrl := true,
      isMonetary := true, isCryptocurrency := false, isSubscription := false,
      isDonation := false }),
   ("etsy",
    { transactionType := "etsy", schemaType := "Offer",
      paymentMethods := ["CreditCard", "PaymentService"],
      defaultAvailability := "OnlineOnly", requiresExternalUrl := true,
      isMonetary := true, isCryptocurrency := false, isSubscription := false,
      isDonation := false }),
   ("amazon",
    { transactionType := "amazon", schemaType := "Offer",
      paymentMethods := ["CreditCard", "PaymentService"],
      defaultAvailability := "OnlineOnly", requiresExternalUrl := true,
      isMonetary := true, isCryptocurrency := false, isSubscription := false,
      isDonation := false }),
   ("snail-mail",
    { transactionType := "snail-mail", schemaType := "Offer",
      paymentMethods := ["Cash", "BankTransfer"],
      defaultAvailability := "InStock", requiresExternalUrl := false,
      isMonetary := true, isCryptocurrency := false, isSubscription := false,
      isDonation := false }),
   ("monero",
    { transactionType := "monero", schemaType := "Offer",
      paymentMethods := ["Cryptocurrency"],
      defaultAvailability := "InStock", requiresExternalUrl := false,
      isMonetary := true, isCryptocurrency := true, isSubscription := false,
      isDonation := false }),
   ("stripe",
    { transactionType := "stripe", schemaType := "Offer",
      paymentMethods := ["CreditCard", "PaymentService"],
      defaultAvailability := "InStock", requiresExternalUrl := false,
      isMonetary := true, isCryptocurrency := false, isSubscription := false,
      isDonation := false }),
   ("polar",
    { transactionType := "polar", schemaType := "Offer",
      paymentMethods := ["Subscription", "PaymentService"],
      defaultAvailability := "OnlineOnly", requiresExternalUrl := true,
      isMonetary := true, isCryptocurrency := false, isSubscription := true,
      isDonation := false }),
   ("talar",
    { transactionType := "talar", schemaType := "Offer",
      paymentMethods := ["BankTransfer", "PaymentService"],
      defaultAvailability := "InStock", requiresExternalUrl := false,
      isMonetary := true, isCryptocurrency := false, isSubscription := false,
      isDonation := false }),
   ("repository",
    { transactionType := "repository", schemaType := "Offer", paymentMethods := [],
      defaultAvailability := "OnlineOnly", requiresExternalUrl := true,
      isMonetary := false, isCryptocurrency := false, isSubscription := false,
      isDonation := false }),
   ("documentation",
    { transactionType := "documentation", schemaType := "Offer", paymentMethods := [],
      defaultAvailability := "OnlineOnly", requiresExternalUrl := true,
      isMonetary := false, isCryptocurrency := false, isSubscription := false,
      isDonation := false }),
   ("booking",
    { transactionType := "booking", schemaType := "ReserveAction",
      paymentMethods := ["PaymentService", "CreditCard"],
      defaultAvailability := "LimitedAvailability", requiresExternalUrl := true,
      isMonetary := true, isCryptocurrency := false, isSubscription := false,
      isDonation := false }),
   ("liberapay",
    { transactionType := "liberapay", schemaType := "DonateAction",
      paymentMethods := ["Donation", "PaymentService"],
      defaultAvailability := "OnlineOnly", requiresExternalUrl := true,
      isMonetary := true, isCryptocurrency := false, isSubscription := true,
      isDonation := true }),
   ("kofi",
    { transactionType := "kofi", schemaType := "DonateAction",
      paymentMethods := ["Donation", "PaymentService"],
      defaultAvailability := "OnlineOnly", requiresExternalUrl := true,
      isMonetary := true, isCryptocurrency := false, isSubscription := false,
      isDonation := true }),
   ("contribute-to-consume",
    { transactionType := "contribute-to-consume", schemaType := "Offer",
      paymentMethods := ["Exchange"],
      defaultAvailability := "InStock", requiresExternalUrl := false,
      isMonetary := false, isCryptocurrency := false, isSubscription := false,
      isDonation := false })]

/-- Record lookup `TRANSACTION_MAPPINGS[type]`. -/
def TRANSACTION_MAPPINGS (t : String) : Option TransactionMapping :=
  mappingsList.lookup t

/-- `TransactionConfig` from `src/types.ts`. -/
structure TransactionConfig where
  type : String
  enabled : Bool
  url : Option String := none
  label : Option String := none
  description : Option String := none
  priority : Option Int := none
  price : Option PriceVal := none
  currency : Option String := none
  availability : Option String := none
deriving DecidableEq

/-- `ProductItem` from `src/types.ts`; of the open `frontmatter` record only the
four keys the module reads are modelled. -/
structure ProductItem where
  slug : String
  title : String
  fmName : Option String := none
  fmDescription : Option String := none
  fmImage : Option String := none
  fmTransactions : Option (List TransactionConfig) := none
deriving DecidableEq

/-- `PriceSpecification` from `src/types.ts`; `price` is `none` when the JS
value would be `NaN` (a non-numeric string run through `parseFloat`). -/
structure PriceSpecification where
  atType : String
  price : Option JsNum
  priceCurrency : String
  valueAddedTaxIncluded : Option Bool := none
deriving DecidableEq

/-- The `seller` sub-record of `SchemaOffer`. -/
structure Seller where
  atType : String
  name : String
  url : Option String
deriving DecidableEq

/-- The `itemOffered` sub-record of `SchemaOffer`. -/
structure ItemOffered where
  atType : String
  name : String
  description : Option String
  url : Option String
  image : Option String
deriving DecidableEq

/-- `SchemaOffer` from `src/types.ts` (the `url` field is always assigned by
the builder, hence plain `String`). -/
structure SchemaOffer where
  atContext : String
  atType : String
  atId : String
  name : String
  description : Option String
  url : String
  price : Option PriceVal := none
  priceCurrency : Option String := none
  priceSpecification : Option PriceSpecification := none
  availability : String
  seller : Option Seller := none
  itemOffered : Option ItemOffered := none
  acceptedPaymentMethod : List String
  transactionType : String
  externalUrl : Option String := none
  requiresAction : Option String := none
deriving DecidableEq

/-- `OfferBuilderService.buildPriceSpec`. -/
def buildPriceSpec (price : PriceVal) (currency : String)
    (mapping : TransactionMapping) : PriceSpecification :=
  { atType := if mapping.isCryptocurrency then "UnitPriceSpecification"
      else "PriceSpecification"
    price := price.parse
    priceCurrency := currency
    valueAddedTaxIncluded :=
      if mapping.isCryptocurrency then none else some false }

/-- `OfferBuilderService.getRequiredAction`. -/
def getRequiredAction (transactionType : String) : String :=
  (([("inquiry", "contact"), ("repository", "view-source"),
     ("documentation", "read-docs"), ("contribute-to-consume", "contribute")] :
    List (String × String)).lookup transactionType).getD "visit"

/-- The fixed display-name table of `OfferBuilderService.getTransactionDisplayName`. -/
def displayNames : List (String × String) :=
  [("inquiry", "Contact"), ("ebay", "eBay"), ("etsy", "Etsy"),
   ("amazon", "Amazon"), ("snail-mail", "Mail Order"), ("monero", "Monero"),
   ("stripe", "Credit Card"), ("polar", "Polar Subscription"),
   ("talar", "GNU Taler"), ("repository", "Source Code"),
   ("documentation", "Documentation"), ("booking", "Book Appointment"),
   ("liberapay", "Liberapay"), ("kofi", "Ko-fi"),
   ("contribute-to-consume", "Contribute to Access")]

/-- `OfferBuilderService.getTransactionDisplayName`. -/
def getTransactionDisplayName (transactionType : String) : String :=
  (displayNames.lookup transactionType).getD transactionType

/-- `OfferBuilderService.buildOffer`; a thrown `Error` is `Except.error` of its
message. -/
def buildOffer (product : ProductItem) (transaction : TransactionConfig)
    (baseUrl : String) : Except String SchemaOffer :=
  match TRANSACTION_MAPPINGS transaction.type with
  | none => .error ("Unknown transaction type: " ++ transaction.type)
  | some mapping =>
    let productName := strOr product.fmName product.title
    let offerId :=
      baseUrl ++ "/products/" ++ product.slug ++ "#offer-" ++ transaction.type
    let monetaryWithPrice := mapping.isMonetary && priceTruthy transaction.price
    let priceSpec : Option PriceSpecification :=
      match transaction.price with
      | some v =>
        if mapping.isMonetary && v.truthy then
          some (buildPriceSpec v (strOr transaction.currency "USD") mapping)
        else none
      | none => none
    .ok
      { atContext := "https://schema.org"
        atType := "Offer"
        atId := offerId
        name := strOr transaction.label (productName ++ " - " ++ transaction.type)
        description := transaction.description
        url := strOr transaction.url (baseUrl ++ "/products/" ++ product.slug)
        price := if monetaryWithPrice then transaction.price else none
        priceCurrency :=
          if monetaryWithPrice then some (strOr transaction.currency "USD")
          else none
        priceSpecification := priceSpec
        availability := strOr transaction.availability mapping.defaultAvailability
        seller := some { atType := "Organization", name := "Tinyland",
                         url := some baseUrl }
        itemOffered := some { atType := "Product", name := productName,
                              description := product.fmDescription,
                              url := some (baseUrl ++ "/products/" ++ product.slug),
                              image := product.fmImage }
        acceptedPaymentMethod := mapping.paymentMethods
        transactionType := transaction.type
        externalUrl := if strTruthy transaction.url then transaction.url else none
        requiresAction :=
          if mapping.isMonetary then none
          else some (getRequiredAction transaction.type) }

/-- `b.priority || 0`: effective priority, missing (and explicit `0`) giving `0`. -/
def effPriority (t : TransactionConfig) : Int :=
  t.priority.getD 0

/-- The order realised by the comparator `(b.priority||0) - (a.priority||0)`:
`a` precedes (or ties) `b` when `a`'s effective priority is at least `b`'s. -/
def priorityGE (a b : TransactionConfig) : Prop :=
  effPriority b ≤ effPriority a

instance : DecidableRel priorityGE :=
  fun a b => Int.decLe (effPriority b) (effPriority a)

instance : IsTotal TransactionConfig priorityGE :=
  ⟨fun a b => le_total (effPriority b) (effPriority a)⟩

instance : IsTrans TransactionConfig priorityGE :=
  ⟨fun _ _ _ h1 h2 => le_trans h2 h1⟩

/-- Model of `Array.prototype.sort` (stable since ES2019) with comparator
`(b.priority||0) - (a.priority||0)`: the unique stable descending reordering,
realised by stable insertion sort. -/
def sortByPriorityDesc (l : List TransactionConfig) : List TransactionConfig :=
  List.insertionSort priorityGE l

/-- JS `Array.prototype.map` with a throwing callback: left-to-right, first
thrown error propagated, no partial results. -/
def mapExcept (f : α → Except String β) : List α → Except String (List β)
  | [] => .ok []
  | a :: as =>
    match f a with
    | .error e => .error e
    | .ok b =>
      match mapExcept f as with
      | .error e => .error e
      | .ok bs => .ok (b :: bs)

/-- `OfferBuilderService.buildAllOffers`. -/
def buildAllOffers (product : ProductItem) (baseUrl : String) :
    Except String (List SchemaOffer) :=
  let transactions := product.fmTransactions.getD []
  let enabledTransactions := sortByPriorityDesc (transactions.filter (·.enabled))
  mapExcept (fun t => buildOffer product t baseUrl) enabledTransactions

/-- The ActivityPub attachment record produced by the projection. -/
structure ActivityPubAttachment where
  type : String
  name : String
  value : String
deriving DecidableEq

/-- `mapping?.isMonetary` for an offer's transaction type (undefined is falsy). -/
def offerMappingMonetary (offer : SchemaOffer) : Bool :=
  match TRANSACTION_MAPPINGS offer.transactionType with
  | some m => m.isMonetary
  | none => false

/-- `OfferBuilderService.offerToActivityPubAttachment`. -/
def offerToActivityPubAttachment (offer : SchemaOffer) : ActivityPubAttachment :=
  let v1 := offer.name
  let v2 :=
    if offerMappingMonetary offer && priceTruthy offer.price then
      v1 ++ (" - " ++ (offer.price.map PriceVal.display).getD "undefined" ++ " " ++
        jsStr offer.priceCurrency)
    else v1
  let v3 :=
    if strTruthy offer.externalUrl then
      v2 ++ (" (" ++ offer.externalUrl.getD "" ++ ")")
    else v2
  { type := "PropertyValue"
    name := getTransactionDisplayName offer.transactionType
    value := v3 }

/-- Characters allowed after the first letter of a URL scheme. -/
def isSchemeChar (c : Char) : Bool :=
  c.isAlphanum || c == '+' || c == '-' || c == '.'

/-- Model of the WHATWG `new URL(u)` constructor succeeding: `u` is an
absolute URL, i.e. starts with a scheme (an ASCII letter followed by
letters, digits, `+`, `-` or `.`) and a colon. -/
def isValidUrl (u : String) : Bool :=
  match u.data with
  | c :: rest => c.isAlpha && ((rest.dropWhile isSchemeChar).head? == some ':')
  | [] => false

/-- `ValidationResult` from `src/types.ts`. -/
structure ValidationResult where
  valid : Bool
  errors : List String
deriving DecidableEq

/-- The `validCurrencies` list of `validateTransaction`. -/
def validCurrencies : List String :=
  ["USD", "EUR", "GBP", "CAD", "AUD", "XMR", "BTC", "ETH"]

/-- The `cryptoCurrencies` list of `validateTransaction`. -/
def cryptoCurrencies : List String :=
  ["XMR", "BTC", "ETH"]

/-- The unknown-type error message. -/
def unknownTypeMsg (ty : String) : String :=
  "Unknown transaction type: " ++ ty

/-- The missing-required-URL error message. -/
def urlRequiredMsg (ty : String) : String :=
  "Transaction type \"" ++ ty ++ "\" requires an external URL"

/-- The malformed-URL error message. -/
def urlFormatMsg (u : String) : String :=
  "Invalid URL format: " ++ u

/-- The missing-price error message. -/
def missingPriceMsg (ty : String) : String :=
  "Monetary transaction type \"" ++ ty ++ "\" requires a price"

/-- The invalid-price error message. -/
def invalidPriceMsg (s : String) : String :=
  "Invalid price: " ++ s

/-- The invalid-currency error message. -/
def invalidCurrencyMsg (c : String) : String :=
  "Invalid currency: " ++ c ++ ". Must be one of: " ++
    String.intercalate ", " validCurrencies

/-- The non-crypto-currency error message. -/
def cryptoCurrencyMsg (c : String) : String :=
  "Cryptocurrency transaction requires crypto currency (XMR, BTC, ETH), got: " ++ c

/-- The missing-required-URL check of `validateTransaction`. -/
def urlRequiredErrors (mapping : TransactionMapping) (t : TransactionConfig) :
    List String :=
  if mapping.requiresExternalUrl && !strTruthy t.url then [urlRequiredMsg t.type]
  else []

/-- The URL-format check of `validateTransaction` (`new URL` inside
`try`/`catch`, guarded by JS truthiness of the field). -/
def urlFormatErrors (t : TransactionConfig) : List String :=
  if strTruthy t.url && !isValidUrl (t.url.getD "") then
    [urlFormatMsg (t.url.getD "")]
  else []

/-- The missing-price check of `validateTransaction` (JS truthiness: the
number `0` and the string `""` count as missing). -/
def missingPriceErrors (mapping : TransactionMapping) (t : TransactionConfig) :
    List String :=
  if mapping.isMonetary && !priceTruthy t.price then [missingPriceMsg t.type]
  else []

/-- The price-value check of `validateTransaction` (runs whenever the field is
supplied at all, even when falsy; `NaN` and negative values are rejected). -/
def priceValueErrors (t : TransactionConfig) : List String :=
  match t.price with
  | none => []
  | some v =>
    match v.parse with
    | none => [invalidPriceMsg v.display]
    | some q => if q.mantissa < 0 then [invalidPriceMsg v.display] else []

/-- The monetary-currency check of `validateTransaction`. -/
def currencyErrors (mapping : TransactionMapping) (t : TransactionConfig) :
    List String :=
  if mapping.isMonetary && strTruthy t.currency &&
      !validCurrencies.contains (t.currency.getD "") then
    [invalidCurrencyMsg (t.currency.getD "")]
  else []

/-- The crypto-currency check of `validateTransaction`. -/
def cryptoCurrencyErrors (mapping : TransactionMapping) (t : TransactionConfig) :
    List String :=
  if mapping.isCryptocurrency && strTruthy t.currency &&
      !cryptoCurrencies.contains (t.currency.getD "") then
    [cryptoCurrencyMsg (t.currency.getD "")]
  else []

/-- `OfferBuilderService.validateTransaction`: short-circuit on unknown type,
then the six checks pushing onto `errors` in source order. -/
def validateTransaction (t : TransactionConfig) : ValidationResult :=
  match TRANSACTION_MAPPINGS t.type with
  | none => { valid := false, errors := [unknownTypeMsg t.type] }
  | some mapping =>
    let errors :=
      urlRequiredErrors mapping t ++ urlFormatErrors t ++
        missingPriceErrors mapping t ++ priceValueErrors t ++
        currencyErrors mapping t ++ cryptoCurrencyErrors mapping t
    { valid := errors.isEmpty, errors := errors }

/-- `getAllTransactionTypes` element type. -/
structure TransactionTypeInfo where
  type : String
  displayName : String
  isMonetary : Bool
  isDonation : Bool
  isSubscription : Bool
  requiresExternalUrl : Bool
deriving DecidableEq

/-- `OfferBuilderService.getAllTransactionTypes`: `Object.entries` iterates the
record in insertion order. -/
def getAllTransactionTypes : List TransactionTypeInfo :=
  mappingsList.map (fun p =>
    { type := p.1
      displayName := getTransactionDisplayName p.1
      isMonetary := p.2.isMonetary
      isDonation := p.2.isDonation
      isSubscription := p.2.isSubscription
      requiresExternalUrl := p.2.requiresExternalUrl })

/-- The mapping-table entry for `stripe`. -/
def stripeMapping : TransactionMapping :=
  { transactionType := "stripe", schemaType := "Offer",
    paymentMethods := ["CreditCard", "PaymentService"],
    defaultAvailability := "InStock", requiresExternalUrl := false,
    isMonetary := true, isCryptocurrency := false, isSubscription := false,
    isDonation := false }

/-- A minimal product with slug `my-item` and empty frontmatter. -/
def sampleProduct : ProductItem :=
  { slug := "my-item", title := "My Item" }

/-- The spec's stripe example transaction: price `29.99`, currency `USD`. -/
def stripeTxn : TransactionConfig :=
  { type := "stripe", enabled := true, price := some (.num ⟨2999, 2⟩),
    currency := some "USD" }

/-- The offer `buildOffer` produces for `sampleProduct`, `stripeTxn` and base
URL `https://tinyland.dev`. -/
def c1Offer : SchemaOffer :=
  { atContext := "https://schema.org"
    atType := "Offer"
    atId := "https://tinyland.dev/products/my-item#offer-stripe"
    name := "My Item - stripe"
    description := none
    url := "https://tinyland.dev/products/my-item"
    price := some (.num ⟨2999, 2⟩)
    priceCurrency := some "USD"
    priceSpecification := some
      { atType := "PriceSpecification", price := some ⟨2999, 2⟩,
        priceCurrency := "USD", valueAddedTaxIncluded := some false }
    availability := "InStock"
    seller := some
      { atType := "Organization", name := "Tinyland",
        url := some "https://tinyland.dev" }
    itemOffered := some
      { atType := "Product", name := "My Item", description := none,
        url := some "https://tinyland.dev/products/my-item", image := none }
    acceptedPaymentMethod := ["CreditCard", "PaymentService"]
    transactionType := "stripe"
    externalUrl := none
    requiresAction := none }

/-- A monetary (stripe) transaction whose price is the number `0`. -/
def zeroPriceTxn : TransactionConfig :=
  { type := "stripe", enabled := true, price := some (.num ⟨0, 0⟩) }

/-- A monetary (stripe) transaction whose price is the string `"0"`. -/
def strZeroTxn : TransactionConfig :=
  { type := "stripe", enabled := true, price := some (.str "0") }

/-- A transaction whose type resolves nowhere in the mapping table. -/
def bogusTxn : TransactionConfig :=
  { type := "bogus", enabled := true }

/-- One row of the spec's per-type mapping table. -/
structure SpecRow where
  type : String
  schemaType : String
  isMonetary : Bool
  isCryptocurrency : Bool
  isSubscription : Bool
  isDonation : Bool
  requiresExternalUrl : Bool
deriving DecidableEq

/-- The spec's per-type table: type → schemaType, monetary?, crypto?,
subscription?, donation?, requiresUrl?. -/
def specMappingRows : List SpecRow :=
  [⟨"inquiry", "Offer", false, false, false, false, false⟩,
   ⟨"ebay", "Offer", true, false, false, false, true⟩,
   ⟨"etsy", "Offer", true, false, false, false, true⟩,
   ⟨"amazon", "Offer", true, false, false, false, true⟩,
   ⟨"snail-mail", "Offer", true, false, false, false, false⟩,
   ⟨"monero", "Offer", true, true, false, false, false⟩,
   ⟨"stripe", "Offer", true, false, false, false, false⟩,
   ⟨"polar", "Offer", true, false, true, false, true⟩,
   ⟨"talar", "Offer", true, false, false, false, false⟩,
   ⟨"repository", "Offer", false, false, false, false, true⟩,
   ⟨"documentation", "Offer", false, false, false, false, true⟩,
   ⟨"booking", "ReserveAction", true, false, false, false, true⟩,
   ⟨"liberapay", "DonateAction", true, false, true, true, true⟩,
   ⟨"kofi", "DonateAction", true, false, false, true, true⟩,
   ⟨"contribute-to-consume", "Offer", false, false, false, false, false⟩]

/-- The claim's "parseable as a non-negative number" for a supplied price. -/
def nonNegNumber (v : PriceVal) : Prop :=
  ∃ q, v.parse = some q ∧ 0 ≤ q.mantissa

instance : DecidablePred nonNegNumber := fun v =>
  match h : v.parse with
  | some q =>
    if hq : 0 ≤ q.mantissa then .isTrue ⟨q, h, hq⟩
    else .isFalse (by
      rintro ⟨q2, h2, hq2⟩
      rw [h] at h2
      injection h2 with h3
      exact hq (h3 ▸ hq2))
  | none => .isFalse (by
      rintro ⟨q2, h2, _⟩
      rw [h] at h2
      cases h2)

/-- Spec-side reformulation of `validateTransaction`, following the claim's
wording: short-circuit on an unknown type; otherwise accumulate, in order,
the applicable errors among missing required external URL, malformed URL,
missing price on a monetary type, supplied price not a parseable
non-negative number, monetary currency outside the fixed set, and
cryptocurrency currency outside the crypto set; valid exactly when no error
accumulated. "Present" for the URL and currency string fields is JS
truthiness (a supplied empty string behaves as absent throughout the
module), "missing price" follows the documented falsy-price policy, and the
price range check runs whenever the field is supplied at all. -/
def validateTransactionSpec (t : TransactionConfig) : ValidationResult :=
  match TRANSACTION_MAPPINGS t.type with
  | none => { valid := false, errors := [unknownTypeMsg t.type] }
  | some m =>
    let errs :=
      (if m.requiresExternalUrl = true ∧ strTruthy t.url = false
        then [urlRequiredMsg t.type] else []) ++
      (if strTruthy t.url = true ∧ isValidUrl (t.url.getD "") = false
        then [urlFormatMsg (t.url.getD "")] else []) ++
      (if m.isMonetary = true ∧ priceTruthy t.price = false
        then [missingPriceMsg t.type] else []) ++
      (match t.price with
       | none => []
       | some v => if nonNegNumber v then [] else [invalidPriceMsg v.display]) ++
      (if m.isMonetary = true ∧ strTruthy t.currency = true ∧
          t.currency.getD "" ∉ validCurrencies
        then [invalidCurrencyMsg (t.currency.getD "")] else []) ++
      (if m.isCryptocurrency = true ∧ strTruthy t.currency = true ∧
          t.currency.getD "" ∉ cryptoCurrencies
        then [cryptoCurrencyMsg (t.currency.getD "")] else [])
    { valid := decide (errs = []), errors := errs }

/-- The enabled transactions of a product, in the order `buildAllOffers`
processes them. -/
def enabledSorted (product : ProductItem) : List TransactionConfig :=
  sortByPriorityDesc ((product.fmTransactions.getD []).filter (·.enabled))

/-- The spec's aggregation example: enabled transactions of priority
`[1, 10, 5]` for types `[stripe, monero, talar]`. -/
def c5Product : ProductItem :=
  { slug := "p", title := "P", fmTransactions := some
      [{ type := "stripe", enabled := true, price := some (.num ⟨10, 0⟩),
         priority := some 1 },
       { type := "monero", enabled := true, price := some (.num ⟨5, 1⟩),
         currency := some "XMR", priority := some 10 },
       { type := "talar", enabled := true, price := some (.num ⟨5, 0⟩),
         priority := some 5 }] }

/-- A product whose frontmatter has no `transactions` key. -/
def noTransactionsProduct : ProductItem :=
  { slug := "p", title := "P" }

/-- The spec's attachment example: a monero offer with price `0.5`
(`⟨5, 1⟩`), currency `XMR` and external URL `https://x`. -/
def moneroOffer : SchemaOffer :=
  { atContext := "https://schema.org", atType := "Offer", atId := "i",
    name := "M", description := none, url := "u",
    price := some (.num ⟨5, 1⟩), priceCurrency := some "XMR",
    availability := "InStock", acceptedPaymentMethod := [],
    transactionType := "monero", externalUrl := some "https://x" }

/-- A monetary (stripe) transaction whose price is the string `"19.99"`. -/
def strPriceTxn : TransactionConfig :=
  { type := "stripe", enabled := true, price := some (.str "19.99"),
    currency := some "USD" }

/-- A nonempty list with a member is not `isEmpty`. -/
theorem list_isEmpty_false_of_mem {α : Type} {l : List α} {a : α} (h : a ∈ l) :
    l.isEmpty = false := by
  cases l with
  | nil => cases h
  | cons x xs => rfl

/-- A list is `isEmpty` exactly when it decides equal to `[]`. -/
theorem list_isEmpty_eq_decide {α : Type} [DecidableEq α] (l : List α) :
    l.isEmpty = decide (l = []) := by
  cases l <;> simp

/-- The missing-URL check equals its claim-side formulation. -/
theorem urlRequiredErrors_eq_spec (m : TransactionMapping)
    (t : TransactionConfig) :
    urlRequiredErrors m t =
      (if m.requiresExternalUrl = true ∧ strTruthy t.url = false
        then [urlRequiredMsg t.type] else []) := by
  unfold urlRequiredErrors
  cases hru : m.requiresExternalUrl <;> cases hu : strTruthy t.url <;>
    simp [hru, hu]

/-- The URL-format check equals its claim-side formulation. -/
theorem urlFormatErrors_eq_spec (t : TransactionConfig) :
    urlFormatErrors t =
      (if strTruthy t.url = true ∧ isValidUrl (t.url.getD "") = false
        then [urlFormatMsg (t.url.getD "")] else []) := by
  unfold urlFormatErrors
  cases hu : strTruthy t.url <;> cases hv : isValidUrl (t.url.getD "") <;>
    simp [hu, hv]

/-- The missing-price check equals its claim-side formulation. -/
theorem missingPriceErrors_eq_spec (m : TransactionMapping)
    (t : TransactionConfig) :
    missingPriceErrors m t =
      (if m.isMonetary = true ∧ priceTruthy t.price = false
        then [missingPriceMsg t.type] else []) := by
  unfold missingPriceErrors
  cases hmo : m.isMonetary <;> cases hp : priceTruthy t.price <;>
    simp [hmo, hp]

/-- The price-value check equals its claim-side formulation. -/
theorem priceValueErrors_eq_spec (t : TransactionConfig) :
    priceValueErrors t =
      (match t.price with
       | none => []
       | some v =>
         if nonNegNumber v then [] else [invalidPriceMsg v.display]) := by
  unfold priceValueErrors
  cases hp : t.price with
  | none => rfl
  | some v =>
    cases hq : v.parse with
    | none => simp [nonNegNumber, hq]
    | some q =>
      by_cases hlt : q.mantissa < 0
      · have : ¬ nonNegNumber v := by
          rintro ⟨q2, h2, hq2⟩
          rw [hq] at h2
          injection h2 with h3
          subst h3
          omega
        simp [hq, hlt, this]
      · have : nonNegNumber v := ⟨q, hq, by omega⟩
        simp [hq, hlt, this]

/-- The monetary-currency check equals its claim-side formulation. -/
theorem currencyErrors_eq_spec (m : TransactionMapping)
    (t : TransactionConfig) :
    currencyErrors m t =
      (if m.isMonetary = true ∧ strTruthy t.currency = true ∧
          t.currency.getD "" ∉ validCurrencies
        then [invalidCurrencyMsg (t.currency.getD "")] else []) := by
  unfold currencyErrors
  cases hmo : m.isMonetary <;> cases hc : strTruthy t.currency <;>
    by_cases hv : t.currency.getD "" ∈ validCurrencies <;>
      simp [hmo, hc, hv]

/-- The crypto-currency check equals its claim-side formulation. -/
theorem cryptoCurrencyErrors_eq_spec (m : TransactionMapping)
    (t : TransactionConfig) :
    cryptoCurrencyErrors m t =
      (if m.isCryptocurrency = true ∧ strTruthy t.currency = true ∧
          t.currency.getD "" ∉ cryptoCurrencies
        then [cryptoCurrencyMsg (t.currency.getD "")] else []) := by
  unfold cryptoCurrencyErrors
  cases hcr : m.isCryptocurrency <;> cases hc : strTruthy t.currency <;>
    by_cases hv : t.currency.getD "" ∈ cryptoCurrencies <;>
      simp [hcr, hc, hv]

/-- C1: for the product `{slug:"my-item"}` and transaction `{type:"stripe",
price:29.99, currency:"USD", enabled:true}` with base URL
`https://tinyland.dev`, `buildOffer` returns the offer with id
`https://tinyland.dev/products/my-item#offer-stripe`, price `29.99`
(`⟨2999, 2⟩` denotes 29.99), currency `USD`, a `PriceSpecification` with
`valueAddedTaxIncluded = false`, and availability `InStock`; and for every
product, transaction and base URL whose type is known to the mapping table,
the offer's id is `{baseUrl}/products/{slug}#offer-{type}`. -/
theorem c1_buildOffer_stripe_example_and_offer_id :
    buildOffer sampleProduct stripeTxn "https://tinyland.dev" = .ok c1Offer ∧
    c1Offer.atId = "https://tinyland.dev/products/my-item#offer-stripe" ∧
    c1Offer.price = some (.num ⟨2999, 2⟩) ∧
    JsNum.toRat ⟨2999, 2⟩ = 29.99 ∧
    c1Offer.priceCurrency = some "USD" ∧
    c1Offer.priceSpecification = some
      ⟨"PriceSpecification", some ⟨2999, 2⟩, "USD", some false⟩ ∧
    c1Offer.availability = "InStock" ∧
    ∀ (p : ProductItem) (t : TransactionConfig) (b : String)
      (m : TransactionMapping), TRANSACTION_MAPPINGS t.type = some m →
      ∀ o, buildOffer p t b = .ok o →
        o.atId = b ++ "/products/" ++ p.slug ++ "#offer-" ++ t.type := by
  refine ⟨by decide, by decide, by decide, by norm_num [JsNum.toRat],
    by decide, by decide, by decide, ?_⟩
  intro p t b m hm o ho
  simp only [buildOffer, hm] at ho
  injection ho with h
  subst h
  rfl

/-- C1 witness: the universal offer-id law applied at the stripe example. -/
theorem c1_offer_id_witness :
    c1Offer.atId =
      "https://tinyland.dev" ++ "/products/" ++ sampleProduct.slug ++
        "#offer-" ++ stripeTxn.type :=
  c1_buildOffer_stripe_example_and_offer_id.2.2.2.2.2.2.2 sampleProduct
    stripeTxn "https://tinyland.dev" stripeMapping (by decide) c1Offer
    (by decide)

/-- C2: for every product and base URL, and every transaction whose type is
monetary in the mapping table but whose price is the number `0`, `buildOffer`
returns an offer with no price, priceCurrency or priceSpecification field,
and `validateTransaction` reports a missing-price error and is not valid. -/
theorem c2_zero_price_is_absent (p : ProductItem) (b : String)
    (t : TransactionConfig) (m : TransactionMapping) (z : JsNum)
    (hm : TRANSACTION_MAPPINGS t.type = some m) (hmon : m.isMonetary = true)
    (hp : t.price = some (.num z)) (hz : z.mantissa = 0) :
    (∃ o, buildOffer p t b = .ok o ∧ o.price = none ∧ o.priceCurrency = none ∧
      o.priceSpecification = none) ∧
    missingPriceErrors m t = [missingPriceMsg t.type] ∧
    missingPriceMsg t.type ∈ (validateTransaction t).errors ∧
    (validateTransaction t).valid = false := by
  have htr : priceTruthy t.price = false := by
    rw [hp]
    simp [priceTruthy, PriceVal.truthy, hz]
  have h3 : missingPriceErrors m t = [missingPriceMsg t.type] := by
    simp [missingPriceErrors, hmon, htr]
  have hmem : missingPriceMsg t.type ∈ (validateTransaction t).errors := by
    simp only [validateTransaction, hm]
    simp [List.mem_append, h3]
  refine ⟨?_, h3, hmem, ?_⟩
  · simp only [buildOffer, hm]
    refine ⟨_, rfl, ?_, ?_, ?_⟩
    · simp [htr]
    · simp [htr]
    · rw [hp]
      simp [PriceVal.truthy, hz]
  · simp only [validateTransaction, hm]
    exact list_isEmpty_false_of_mem (by simpa [validateTransaction, hm] using hmem)

/-- C2 witness: the stripe transaction with numeric price `0`. -/
theorem c2_zero_price_witness :
    missingPriceErrors stripeMapping zeroPriceTxn =
      [missingPriceMsg zeroPriceTxn.type] ∧
    (validateTransaction zeroPriceTxn).valid = false := by
  have h := c2_zero_price_is_absent sampleProduct "https://tinyland.dev"
    zeroPriceTxn stripeMapping ⟨0, 0⟩ (by decide) (by decide) rfl rfl
  exact ⟨h.2.1, h.2.2.2⟩

/-- C3: `buildOffer` fails exactly on a transaction type that does not
resolve in the mapping table; the error message carries the offending type
string, and every resolving type yields an offer. -/
theorem c3_unknown_type_error (p : ProductItem) (t : TransactionConfig)
    (b : String) :
    (buildOffer p t b = .error (unknownTypeMsg t.type) ↔
      TRANSACTION_MAPPINGS t.type = none) ∧
    ((∃ e, buildOffer p t b = .error e) ↔ TRANSACTION_MAPPINGS t.type = none) ∧
    (∀ m, TRANSACTION_MAPPINGS t.type = some m →
      ∃ o, buildOffer p t b = .ok o) ∧
    (∀ e, buildOffer p t b = .error e → e = unknownTypeMsg t.type) := by
  cases h : TRANSACTION_MAPPINGS t.type with
  | none =>
    refine ⟨by simp [buildOffer, h, unknownTypeMsg], ?_, ?_, ?_⟩
    · simp [buildOffer, h, unknownTypeMsg]
    · intro m hm
      simp at hm
    · intro e he
      simp only [buildOffer, h] at he
      injection he with h2
      rw [← h2]
      rfl
  | some m =>
    refine ⟨by simp [buildOffer, h], by simp [buildOffer, h], ?_, ?_⟩
    · intro m2 _
      unfold buildOffer
      rw [h]
      exact ⟨_, rfl⟩
    · intro e he
      simp [buildOffer, h] at he

/-- C3 witness: the unresolvable type `bogus` produces exactly the
unknown-type error. -/
theorem c3_unknown_type_witness :
    buildOffer sampleProduct bogusTxn "https://tinyland.dev" =
      .error (unknownTypeMsg bogusTxn.type) :=
  (c3_unknown_type_error sampleProduct bogusTxn "https://tinyland.dev").1.mpr
    (by decide)

/-- C6: the mapping table holds exactly the fifteen types of the spec, in
order; every entry's `transactionType` equals its key; each entry's
schemaType and five flags equal the spec's per-type row; and `monero` is the
only cryptocurrency entry. -/
theorem c6_mapping_table_matches_spec :
    mappingsList.map (fun p => p.1) =
      ["inquiry", "ebay", "etsy", "amazon", "snail-mail", "monero", "stripe",
       "polar", "talar", "repository", "documentation", "booking",
       "liberapay", "kofi", "contribute-to-consume"] ∧
    mappingsList.length = 15 ∧
    mappingsList.all (fun p => p.2.transactionType == p.1) = true ∧
    mappingsList.map (fun p => SpecRow.mk p.1 p.2.schemaType p.2.isMonetary
      p.2.isCryptocurrency p.2.isSubscription p.2.isDonation
      p.2.requiresExternalUrl) = specMappingRows ∧
    (mappingsList.filter (fun p => p.2.isCryptocurrency)).map (fun p => p.1) =
      ["monero"] := by
  decide

/-- C9: `getAllTransactionTypes` returns one entry per mapping-table key, in
table order, whose four flags equal the mapping's field-for-field and whose
display name comes from the fixed display-name table. -/
theorem c9_getAllTransactionTypes_matches_mappings :
    getAllTransactionTypes.length = 15 ∧
    getAllTransactionTypes.map (fun e => e.type) =
      mappingsList.map (fun p => p.1) ∧
    getAllTransactionTypes.all (fun e =>
      match TRANSACTION_MAPPINGS e.type with
      | some m =>
        e.isMonetary == m.isMonetary && e.isDonation == m.isDonation &&
          e.isSubscription == m.isSubscription &&
          e.requiresExternalUrl == m.requiresExternalUrl
      | none => false) = true ∧
    getAllTransactionTypes.map (fun e => e.displayName) =
      ["Contact", "eBay", "Etsy", "Amazon", "Mail Order", "Monero",
       "Credit Card", "Polar Subscription", "GNU Taler", "Source Code",
       "Documentation", "Book Appointment", "Liberapay", "Ko-fi",
       "Contribute to Access"] := by
  decide

/-- `orderedInsert` leaves each equal-priority class's subsequence unchanged
(the inserted element, if in the class, joins at the front: it is never
placed past an equal-priority element). -/
theorem filter_orderedInsert_priority (k : Int) (x : TransactionConfig) :
    ∀ m : List TransactionConfig,
      (List.orderedInsert priorityGE x m).filter (fun t => effPriority t == k) =
        (if effPriority x == k then
          x :: m.filter (fun t => effPriority t == k)
        else m.filter (fun t => effPriority t == k))
  | [] => by
    by_cases hx : effPriority x == k <;>
      simp [List.orderedInsert, List.filter_cons, hx]
  | y :: ys => by
    rw [List.orderedInsert]
    by_cases hxy : priorityGE x y
    · rw [if_pos hxy]
      by_cases hx : effPriority x == k <;> simp [List.filter_cons, hx]
    · rw [if_neg hxy]
      rw [List.filter_cons, List.filter_cons]
      rw [filter_orderedInsert_priority k x ys]
      by_cases hx : effPriority x == k
      · have hxlt : effPriority x < effPriority y := lt_of_not_le hxy
        have h1 : effPriority x = k := beq_iff_eq.mp hx
        have hy : (effPriority y == k) = false := by
          rw [beq_eq_false_iff_ne]
          omega
        simp [hx, hy]
      · simp [hx]

/-- The stable descending sort leaves each equal-priority class's
subsequence unchanged: equal-priority entries retain their original
relative order. -/
theorem filter_sortByPriorityDesc (k : Int) :
    ∀ l : List TransactionConfig,
      (sortByPriorityDesc l).filter (fun t => effPriority t == k) =
        l.filter (fun t => effPriority t == k)
  | [] => rfl
  | x :: xs => by
    simp only [sortByPriorityDesc, List.insertionSort]
    rw [filter_orderedInsert_priority k x]
    rw [show List.insertionSort priorityGE xs = sortByPriorityDesc xs from rfl]
    rw [filter_sortByPriorityDesc k xs]
    by_cases hx : effPriority x == k <;> simp [List.filter_cons, hx]

/-- Mapping `buildOffer` over a list fails with the unknown-type error of
the first entry whose type does not resolve. -/
theorem mapExcept_buildOffer_error (p : ProductItem) (b : String) :
    ∀ (l : List TransactionConfig) (t0 : TransactionConfig),
      l.find? (fun t => (TRANSACTION_MAPPINGS t.type).isNone) = some t0 →
      mapExcept (fun t => buildOffer p t b) l = .error (unknownTypeMsg t0.type)
  | [], t0 => by
    intro h
    simp at h
  | x :: xs, t0 => by
    intro h
    rw [List.find?_cons] at h
    cases hx : TRANSACTION_MAPPINGS x.type with
    | none =>
      rw [hx] at h
      simp at h
      subst h
      unfold mapExcept
      rw [show buildOffer p x b = .error (unknownTypeMsg x.type) from by
        unfold buildOffer; rw [hx]; rfl]
    | some m =>
      rw [hx] at h
      simp at h
      have ih := mapExcept_buildOffer_error p b xs t0 h
      have hb : ∃ o, buildOffer p x b = .ok o := by
        unfold buildOffer
        rw [hx]
        exact ⟨_, rfl⟩
      obtain ⟨o, ho⟩ := hb
      unfold mapExcept
      rw [ho, ih]

/-- When mapping `buildOffer` over a list succeeds, the offers correspond to
the list entries one-to-one and in order (witnessed by transaction types). -/
theorem mapExcept_buildOffer_ok (p : ProductItem) (b : String) :
    ∀ (l : List TransactionConfig) (os : List SchemaOffer),
      mapExcept (fun t => buildOffer p t b) l = .ok os →
      os.map (fun o => o.transactionType) = l.map (fun t => t.type)
  | [], os => by
    intro h
    unfold mapExcept at h
    injection h with h2
    rw [← h2]
    rfl
  | x :: xs, os => by
    intro h
    unfold mapExcept at h
    cases hb : buildOffer p x b with
    | error e =>
      rw [hb] at h
      simp at h
    | ok o =>
      rw [hb] at h
      cases hrec : mapExcept (fun t => buildOffer p t b) xs with
      | error e =>
        rw [hrec] at h
        simp at h
      | ok bs =>
        rw [hrec] at h
        injection h with h2
        subst h2
        have ih := mapExcept_buildOffer_ok p b xs bs hrec
        have hox : o.transactionType = x.type := by
          cases hx : TRANSACTION_MAPPINGS x.type with
          | none =>
            unfold buildOffer at hb
            rw [hx] at hb
            simp at hb
          | some m =>
            unfold buildOffer at hb
            rw [hx] at hb
            injection hb with h3
            rw [← h3]
        simp [List.map, ih, hox]

/-- C5: `buildAllOffers` yields the empty sequence when `transactions` is
absent or all disabled; otherwise it maps `buildOffer`, in order, over the
enabled configs sorted descending by priority (missing priority `0`) with a
stable sort (each equal-priority class keeps its original order), failing
fast with the first unknown-type error; the spec's `[1,10,5]` example
produces `[monero, talar, stripe]`. -/
theorem c5_buildAllOffers_pipeline (p : ProductItem) (b : String) :
    (p.fmTransactions = none → buildAllOffers p b = .ok []) ∧
    ((∀ t ∈ p.fmTransactions.getD [], t.enabled = false) →
      buildAllOffers p b = .ok []) ∧
    buildAllOffers p b =
      mapExcept (fun t => buildOffer p t b) (enabledSorted p) ∧
    (enabledSorted p).Perm
      ((p.fmTransactions.getD []).filter (·.enabled)) ∧
    List.Pairwise (fun a c => effPriority c ≤ effPriority a)
      (enabledSorted p) ∧
    (∀ k : Int, (enabledSorted p).filter (fun t => effPriority t == k) =
      ((p.fmTransactions.getD []).filter (·.enabled)).filter
        (fun t => effPriority t == k)) ∧
    (∀ t0, (enabledSorted p).find?
        (fun t => (TRANSACTION_MAPPINGS t.type).isNone) = some t0 →
      buildAllOffers p b = .error (unknownTypeMsg t0.type)) ∧
    (∀ os, buildAllOffers p b = .ok os →
      os.map (fun o => o.transactionType) =
        (enabledSorted p).map (fun t => t.type)) ∧
    (buildAllOffers c5Product "https://b").toOption.map
      (fun os => os.map (fun o => o.transactionType)) =
      some ["monero", "talar", "stripe"] := by
  refine ⟨?_, ?_, rfl, List.perm_insertionSort priorityGE _,
    List.sorted_insertionSort priorityGE _,
    fun k => filter_sortByPriorityDesc k _,
    mapExcept_buildOffer_error p b (enabledSorted p),
    mapExcept_buildOffer_ok p b (enabledSorted p), by decide⟩
  · intro h
    unfold buildAllOffers
    rw [h]
    rfl
  · intro h
    have hnil : (p.fmTransactions.getD []).filter (·.enabled) = [] :=
      List.filter_eq_nil_iff.mpr (fun a ha => by simp [h a ha])
    simp only [buildAllOffers]
    rw [hnil]
    rfl

/-- C5 witness: a product with no `transactions` key yields no offers. -/
theorem c5_buildAllOffers_witness :
    buildAllOffers noTransactionsProduct "https://tinyland.dev" = .ok [] :=
  (c5_buildAllOffers_pipeline noTransactionsProduct "https://tinyland.dev").1
    rfl

/-- C4: `validateTransaction` never throws and equals, pointwise, the
claim-side validator: a single unknown-type error short-circuits; otherwise
exactly the applicable errors among the six checks accumulate, in order, and
validity holds exactly when no error accumulated. -/
theorem c4_validateTransaction_matches_spec (t : TransactionConfig) :
    validateTransaction t = validateTransactionSpec t ∧
    ((validateTransaction t).valid = true ↔
      (validateTransaction t).errors = []) ∧
    (TRANSACTION_MAPPINGS t.type = none →
      validateTransaction t = ⟨false, [unknownTypeMsg t.type]⟩) ∧
    (∀ m, TRANSACTION_MAPPINGS t.type = some m →
      (validateTransaction t).errors =
        urlRequiredErrors m t ++ urlFormatErrors t ++
          missingPriceErrors m t ++ priceValueErrors t ++
          currencyErrors m t ++ cryptoCurrencyErrors m t) := by
  cases h : TRANSACTION_MAPPINGS t.type with
  | none =>
    refine ⟨by simp [validateTransaction, validateTransactionSpec, h],
      by simp [validateTransaction, h], fun _ => by simp [validateTransaction, h],
      ?_⟩
    intro m hm
    simp at hm
  | some m2 =>
    refine ⟨?_, ?_, ?_, ?_⟩
    · simp only [validateTransaction, validateTransactionSpec, h]
      rw [urlRequiredErrors_eq_spec, urlFormatErrors_eq_spec,
        missingPriceErrors_eq_spec, priceValueErrors_eq_spec,
        currencyErrors_eq_spec, cryptoCurrencyErrors_eq_spec,
        list_isEmpty_eq_decide]
    · simp only [validateTransaction, h]
      exact List.isEmpty_iff
    · intro hn
      simp at hn
    · intro m3 hm3
      injection hm3 with h4
      subst h4
      simp only [validateTransaction, h]

/-- C4 witness: the validator applied at an unresolvable type. -/
theorem c4_validateTransaction_witness :
    validateTransaction bogusTxn = ⟨false, [unknownTypeMsg bogusTxn.type]⟩ :=
  (c4_validateTransaction_matches_spec bogusTxn).2.2.1 (by decide)

/-- `validateTransaction`'s validity bit is always the emptiness of its
error list. -/
theorem validateTransaction_valid_eq (t : TransactionConfig) :
    (validateTransaction t).valid = (validateTransaction t).errors.isEmpty := by
  cases h : TRANSACTION_MAPPINGS t.type <;> simp [validateTransaction, h]

/-- C7: for every monetary transaction with a truthy price, the price
specification `buildOffer` attaches is built by `buildPriceSpec` from the
price and the defaulted currency; it is tagged `UnitPriceSpecification` for
a cryptocurrency mapping and `PriceSpecification` otherwise, carries
`valueAddedTaxIncluded = false` exactly in the non-crypto case, and a
string price is coerced to its parsed floating value. -/
theorem c7_priceSpec_shape (p : ProductItem) (t : TransactionConfig)
    (b : String) (m : TransactionMapping) (v : PriceVal)
    (hm : TRANSACTION_MAPPINGS t.type = some m) (hmon : m.isMonetary = true)
    (hp : t.price = some v) (ht : v.truthy = true) :
    (buildOffer p t b).toOption.map (fun o => o.priceSpecification) =
      some (some (buildPriceSpec v (strOr t.currency "USD") m)) ∧
    (buildPriceSpec v (strOr t.currency "USD") m).atType =
      (if m.isCryptocurrency then "UnitPriceSpecification"
        else "PriceSpecification") ∧
    (m.isCryptocurrency = false →
      (buildPriceSpec v (strOr t.currency "USD") m).valueAddedTaxIncluded =
        some false) ∧
    (m.isCryptocurrency = true →
      (buildPriceSpec v (strOr t.currency "USD") m).valueAddedTaxIncluded =
        none) ∧
    (buildPriceSpec v (strOr t.currency "USD") m).price = v.parse ∧
    (∀ s2, v = .str s2 →
      (buildPriceSpec v (strOr t.currency "USD") m).price =
        jsParseFloat s2) := by
  refine ⟨?_, rfl, ?_, ?_, rfl, ?_⟩
  · simp [buildOffer, hm, hp, hmon, ht, Except.toOption]
  · intro hc
    simp [buildPriceSpec, hc]
  · intro hc
    simp [buildPriceSpec, hc]
  · intro s2 hs
    subst hs
    rfl

/-- C7 witness: the stripe transaction with string price `"19.99"`. -/
theorem c7_priceSpec_witness :
    (buildOffer sampleProduct strPriceTxn "https://tinyland.dev").toOption.map
      (fun o => o.priceSpecification) =
      some (some (buildPriceSpec (.str "19.99")
        (strOr strPriceTxn.currency "USD") stripeMapping)) :=
  (c7_priceSpec_shape sampleProduct strPriceTxn "https://tinyland.dev"
    stripeMapping (.str "19.99") (by decide) (by decide) rfl (by decide)).1

/-- C8: the attachment projection always yields a `PropertyValue` whose
name is the fixed display name of the offer's transaction type (the raw
type string when unknown) and whose value is the offer's name, then the
` - {price} {currency}` suffix exactly when the mapped type is monetary
with a truthy price, then the ` ({url})` suffix exactly when an external
URL is present — the two appends independent and in that order; the spec's
monero example yields `M - 0.5 XMR (https://x)` (`⟨5, 1⟩` denotes 0.5). -/
theorem c8_attachment_projection (offer : SchemaOffer) :
    (offerToActivityPubAttachment offer).type = "PropertyValue" ∧
    (offerToActivityPubAttachment offer).name =
      getTransactionDisplayName offer.transactionType ∧
    getTransactionDisplayName "stripe" = "Credit Card" ∧
    getTransactionDisplayName "monero" = "Monero" ∧
    (∀ ty, displayNames.lookup ty = none →
      getTransactionDisplayName ty = ty) ∧
    (offerToActivityPubAttachment offer).value =
      offer.name ++
        (if offerMappingMonetary offer && priceTruthy offer.price then
          " - " ++ (offer.price.map PriceVal.display).getD "undefined" ++
            " " ++ jsStr offer.priceCurrency
        else "") ++
        (if strTruthy offer.externalUrl then
          " (" ++ offer.externalUrl.getD "" ++ ")"
        else "") ∧
    (offerToActivityPubAttachment moneroOffer).value =
      "M - 0.5 XMR (https://x)" ∧
    JsNum.toRat ⟨5, 1⟩ = 0.5 := by
  refine ⟨rfl, rfl, by decide, by decide, ?_, ?_, by decide,
    by norm_num [JsNum.toRat]⟩
  · intro ty hty
    simp [getTransactionDisplayName, hty]
  · unfold offerToActivityPubAttachment
    by_cases h1 : offerMappingMonetary offer && priceTruthy offer.price <;>
      by_cases h2 : strTruthy offer.externalUrl <;>
        simp [h1, h2, String.append_assoc, String.append_empty]

/-- C8 witness: the display-name fallback applied at an unknown type. -/
theorem c8_attachment_witness : getTransactionDisplayName "zzz" = "zzz" :=
  (c8_attachment_projection moneroOffer).2.2.2.2.1 "zzz" (by decide)

/-- C10: the falsy-price policy does not extend to the string `"0"`: a
monetary transaction with price `"0"` gets price, priceCurrency and a
price specification of price `0` attached by `buildOffer`, and
`validateTransaction` raises neither a missing-price nor an invalid-price
error for it — while the numeric price `0` yields the missing-price error
and invalidates the same transaction. -/
theorem c10_string_zero_price (p : ProductItem) (b : String)
    (t : TransactionConfig) (m : TransactionMapping)
    (hm : TRANSACTION_MAPPINGS t.type = some m) (hmon : m.isMonetary = true)
    (hp : t.price = some (.str "0")) :
    (buildOffer p t b).toOption.map (fun o =>
      (o.price, o.priceCurrency, o.priceSpecification)) =
      some (some (.str "0"), some (strOr t.currency "USD"),
        some (buildPriceSpec (.str "0") (strOr t.currency "USD") m)) ∧
    (buildPriceSpec (.str "0") (strOr t.currency "USD") m).price =
      some ⟨0, 0⟩ ∧
    missingPriceErrors m t = [] ∧
    priceValueErrors t = [] ∧
    (validateTransaction t).errors =
      urlRequiredErrors m t ++ urlFormatErrors t ++ currencyErrors m t ++
        cryptoCurrencyErrors m t ∧
    missingPriceErrors m { t with price := some (.num ⟨0, 0⟩) } =
      [missingPriceMsg t.type] ∧
    (validateTransaction { t with price := some (.num ⟨0, 0⟩) }).valid =
      false := by
  have htr : priceTruthy t.price = true := by
    rw [hp]
    rfl
  have h3 : missingPriceErrors m t = [] := by
    simp [missingPriceErrors, htr]
  have h4 : priceValueErrors t = [] := by
    unfold priceValueErrors
    rw [hp]
    rfl
  have h6 : missingPriceErrors m { t with price := some (.num ⟨0, 0⟩) } =
      [missingPriceMsg t.type] := by
    simp [missingPriceErrors, hmon, priceTruthy, PriceVal.truthy]
  refine ⟨?_, rfl, h3, h4, ?_, h6, ?_⟩
  · simp [buildOffer, hm, hp, hmon, Except.toOption, priceTruthy,
      PriceVal.truthy]
  · simp only [validateTransaction, hm]
    rw [h3, h4]
    simp
  · have hmem : missingPriceMsg t.type ∈
        (validateTransaction { t with price := some (.num ⟨0, 0⟩) }).errors := by
      simp only [validateTransaction, hm]
      simp [List.mem_append, h6]
    rw [validateTransaction_valid_eq]
    exact list_isEmpty_false_of_mem hmem

/-- C10 witness: the stripe transaction with string price `"0"` raises
neither price error. -/
theorem c10_string_zero_witness :
    missingPriceErrors stripeMapping strZeroTxn = [] ∧
    priceValueErrors strZeroTxn = [] := by
  have h := c10_string_zero_price sampleProduct "https://tinyland.dev"
    strZeroTxn stripeMapping (by decide) (by decide) rfl
  exact ⟨h.2.2.1, h.2.2.2.1⟩

end OfferBuilder
